import Mathlib

/-
  Shallow embedding of `src/code/src/game.ts` (the Rive multiple-draw
  performance-degradation reproduction page).

  Numbers are modelled as rationals.  The only non-finite value the FPS
  pipeline can produce is `1 / 0 = +Infinity` (the timestamps are rationals,
  so `elapsedTimeSec` is a rational, and the sole division is
  `1 / elapsedTimeSec`); we therefore model JS numbers flowing into the FPS
  history as `JSVal`: a finite rational or positive infinity.

  Effectful calls (renderer, state machine, artboard, canvas 2D context,
  requestAnimationFrame) are modelled as events appended to a trace, and the
  module-level mutable variables (`lastTime`, `fpsArray`, `renderCount`) as a
  `LoopState` record threaded through `renderLoopTick`.
-/

namespace RiveDeg

/-- A JS number as it can appear in `fpsArray`: finite, or `+Infinity`
(the result of `1 / 0`). -/
inductive JSVal where
  | finite (q : ℚ)
  | inf
  deriving DecidableEq

/-- JS `1 / x` for a rational `x`: `1 / 0` is `+Infinity`, otherwise exact. -/
def jsRecip (x : ℚ) : JSVal :=
  if x = 0 then JSVal.inf else JSVal.finite (1 / x)

/-- `const MAX_FPS_SAMPLES = 1000;` (game.ts line 30). -/
def MAX_FPS_SAMPLES : ℕ := 1000

/-- One FPS-history insertion, from game.ts lines 106-109:
`fpsArray.push(fps); if (fpsArray.length > MAX_FPS_SAMPLES) fpsArray.shift();`. -/
def recordSample (arr : List JSVal) (v : JSVal) : List JSVal :=
  let a := arr ++ [v]
  if MAX_FPS_SAMPLES < a.length then a.tail else a

/-- The FPS history obtained by starting from the empty `fpsArray` and
performing `recordSample` for each value of `vs` in order. -/
def histRun (vs : List JSVal) : List JSVal :=
  vs.foldl recordSample []

/-- A click on one of the two render-count buttons (game.ts lines 49-64). -/
inductive CtrlOp where
  | inc
  | dec
  deriving DecidableEq

/-- Effect of one button click on `renderCount`:
`renderCount = Math.min(100, renderCount + 1)` for `+`,
`renderCount = Math.max(1, renderCount - 1)` for `-`. -/
def ctrlStep (v : ℤ) : CtrlOp → ℤ
  | CtrlOp.inc => min 100 (v + 1)
  | CtrlOp.dec => max 1 (v - 1)

/-- `renderCount` after a sequence of clicks, from its initial value `1`
(game.ts line 26). -/
def ctrlRun (ops : List CtrlOp) : ℤ :=
  ops.foldl ctrlStep 1

-- Basic lemmas about the history buffer.

lemma histRun_append (vs : List JSVal) (v : JSVal) :
    histRun (vs ++ [v]) = recordSample (histRun vs) v := by
  simp [histRun, List.foldl_append]

lemma recordSample_length (l : List JSVal) (v : JSVal)
    (h : l.length ≤ MAX_FPS_SAMPLES) :
    (recordSample l v).length = min (l.length + 1) MAX_FPS_SAMPLES := by
  unfold recordSample
  by_cases hc : MAX_FPS_SAMPLES < (l ++ [v]).length
  · simp only [hc, if_true]
    simp only [List.length_tail, List.length_append, List.length_singleton] at *
    omega
  · simp only [hc, if_false]
    simp only [List.length_append, List.length_singleton] at *
    omega

lemma histRun_eq_drop (vs : List JSVal) :
    histRun vs = vs.drop (vs.length - MAX_FPS_SAMPLES) := by
  induction vs using List.reverseRecOn with
  | nil => simp [histRun]
  | append_singleton vs v ih =>
    rw [histRun_append, ih]
    unfold recordSample
    by_cases hlen : vs.length < MAX_FPS_SAMPLES
    · have hd : vs.length - MAX_FPS_SAMPLES = 0 := by omega
      have hd' : (vs ++ [v]).length - MAX_FPS_SAMPLES = 0 := by
        simp only [List.length_append, List.length_singleton]; omega
      rw [hd, hd', List.drop_zero, List.drop_zero]
      have hnlt : ¬ MAX_FPS_SAMPLES < vs.length + 1 := by omega
      simp [hnlt]
    · push_neg at hlen
      have hpos : 0 < MAX_FPS_SAMPLES := by norm_num [MAX_FPS_SAMPLES]
      have hdlen : (vs.drop (vs.length - MAX_FPS_SAMPLES)).length
          = MAX_FPS_SAMPLES := by
        simp only [List.length_drop]; omega
      have hc : MAX_FPS_SAMPLES
          < (vs.drop (vs.length - MAX_FPS_SAMPLES) ++ [v]).length := by
        simp only [List.length_append, List.length_singleton, hdlen]; omega
      simp only [hc, if_true]
      have hne : vs.drop (vs.length - MAX_FPS_SAMPLES) ≠ [] := by
        intro hnil
        rw [hnil] at hdlen
        simp at hdlen
        omega
      rw [List.tail_append_singleton_of_ne_nil hne]
      rw [← List.drop_one, List.drop_drop]
      have h1 : vs.length - MAX_FPS_SAMPLES + 1
          = (vs ++ [v]).length - MAX_FPS_SAMPLES := by
        simp only [List.length_append, List.length_singleton]; omega
      rw [h1]
      have h2 : (vs ++ [v]).length - MAX_FPS_SAMPLES ≤ vs.length := by
        simp only [List.length_append, List.length_singleton]; omega
      rw [List.drop_append_of_le_length h2]

-- The FPS overlay (game.ts lines 150-163 and 165-225).

/-- `fpsCanvas.width = 200;` (game.ts line 152). -/
def fpsCanvasWidth : ℚ := 200

/-- `fpsCanvas.height = 100;` (game.ts line 153). -/
def fpsCanvasHeight : ℚ := 100

/-- One canvas-2D drawing call issued by `drawFPSGraph`. -/
inductive Cmd where
  | clearRect (x y w h : ℚ)
  | fillStyle (s : String)
  | fillRect (x y w h : ℚ)
  | strokeStyle (s : String)
  | font (s : String)
  | beginPath
  | moveTo (x y : ℚ)
  | lineTo (x y : ℚ)
  | stroke
  | fillText (s : String) (x y : ℚ)
  deriving DecidableEq

/-- `const minFPS = 15;` (game.ts line 188). -/
def minFPS : ℚ := 15

/-- `const maxFPS = 200;` (game.ts line 189). -/
def maxFPS : ℚ := 200

/-- `const targetFPS = [30, 60, 120];` (game.ts line 190). -/
def targetFPS : List ℚ := [30, 60, 120]

/-- The vertical pixel position used for an FPS value, the formula shared by
the target lines (game.ts line 194) and the data polyline (line 215):
`height - (((fps - minFPS) / (maxFPS - minFPS)) * height)`. -/
def fpsToY (fps : ℚ) : ℚ :=
  fpsCanvasHeight - ((fps - minFPS) / (maxFPS - minFPS)) * fpsCanvasHeight

/-- JS `Math.min(a, x)` where `a` is finite and `x` may be `+Infinity`. -/
def jsMin (a : ℚ) : JSVal → ℚ
  | JSVal.inf => a
  | JSVal.finite b => min a b

/-- `Math.max(minFPS, Math.min(maxFPS, fps))` (game.ts line 214). -/
def clampFPS (v : JSVal) : ℚ :=
  max minFPS (jsMin maxFPS v)

/-- The grid strokes (game.ts lines 178-185): vertical lines at
`i = 0, 20, ..., 180` (`i < width`) and horizontal lines at
`i = 0, 20, ..., 80` (`i < height`). -/
def gridCmds : List Cmd :=
  ((List.range 10).map fun i =>
    [Cmd.moveTo (20 * (i : ℚ)) 0, Cmd.lineTo (20 * (i : ℚ)) fpsCanvasHeight]).flatten
  ++ ((List.range 5).map fun i =>
    [Cmd.moveTo 0 (20 * (i : ℚ)), Cmd.lineTo fpsCanvasWidth (20 * (i : ℚ))]).flatten

/-- The clear, translucent background fill, and grid stroke style plus path
(game.ts lines 171-186). -/
def headerCmds : List Cmd :=
  [Cmd.clearRect 0 0 fpsCanvasWidth fpsCanvasHeight,
   Cmd.fillStyle "rgba(0, 0, 0, 0.7)",
   Cmd.fillRect 0 0 fpsCanvasWidth fpsCanvasHeight,
   Cmd.strokeStyle "rgba(255, 255, 255, 0.1)",
   Cmd.beginPath]
  ++ gridCmds ++ [Cmd.stroke]

/-- One target-FPS reference line and its label (game.ts lines 193-204). -/
def targetLineCmds (fps : ℚ) : List Cmd :=
  [Cmd.strokeStyle "rgba(255, 0, 0, 0.5)",
   Cmd.beginPath,
   Cmd.moveTo 0 (fpsToY fps),
   Cmd.lineTo fpsCanvasWidth (fpsToY fps),
   Cmd.stroke,
   Cmd.fillStyle "rgb(255, 255, 255)",
   Cmd.font "8px monospace",
   Cmd.fillText (toString fps ++ " FPS") 5 (fpsToY fps - 2)]

/-- The FPS data polyline (game.ts lines 207-219): a fixed starting point at
`(0, height)`, then — only when `fpsArray.length > 1` — one `lineTo` per
sample at `x = (i / (length - 1)) * width` and the clamped, shared vertical
mapping. -/
def polylineCmds (samples : List JSVal) : List Cmd :=
  [Cmd.strokeStyle "rgb(0, 255, 0)", Cmd.beginPath, Cmd.moveTo 0 fpsCanvasHeight]
  ++ (if 1 < samples.length then
        samples.enum.map fun p =>
          Cmd.lineTo (((p.1 : ℚ) / ((samples.length : ℚ) - 1)) * fpsCanvasWidth)
            (fpsToY (clampFPS p.2))
      else [])
  ++ [Cmd.stroke]

/-- JS `Math.round` on a finite number: round half toward `+Infinity`. -/
def roundJS (q : ℚ) : ℤ := Int.floor (q + 1 / 2)

/-- The text shown by `Math.round(fpsArray[fpsArray.length - 1])`
(game.ts line 224): on an empty array the index is out of range, the element
is `undefined`, and `Math.round(undefined)` displays as `NaN`;
`Math.round(Infinity)` displays as `Infinity`. -/
def roundedLast (samples : List JSVal) : String :=
  match samples.getLast? with
  | none => "NaN"
  | some JSVal.inf => "Infinity"
  | some (JSVal.finite q) => toString (roundJS q)

/-- The current-FPS readout (game.ts lines 222-224). -/
def readoutCmds (samples : List JSVal) : List Cmd :=
  [Cmd.fillStyle "rgb(255, 255, 255)",
   Cmd.font "10px monospace",
   Cmd.fillText ("Current: " ++ roundedLast samples ++ " FPS") 5 10]

/-- `drawFPSGraph` (game.ts lines 165-225) as the list of canvas calls it
issues, as a function of the `fpsArray` contents it reads. -/
def drawFPSGraph (samples : List JSVal) : List Cmd :=
  headerCmds
  ++ (targetFPS.map targetLineCmds).flatten
  ++ polylineCmds samples
  ++ readoutCmds samples

/-- The `lineTo` calls of a command list, in order. -/
def lineTos (cmds : List Cmd) : List (ℚ × ℚ) :=
  cmds.filterMap fun c =>
    match c with
    | Cmd.lineTo x y => some (x, y)
    | _ => none

-- The render loop (game.ts lines 96-139).

/-- The module-level mutable state read and written by `renderLoop`:
`lastTime` (line 22), `fpsArray` (line 29) and `renderCount` (line 26). -/
structure LoopState where
  lastTime : ℚ
  fpsArray : List JSVal
  renderCount : ℤ
  deriving DecidableEq

/-- One observable call made during a tick: the history push, the overlay
redraw (with the canvas calls it issues), the renderer/state-machine/artboard
calls, and the `requestAnimationFrame` re-arm. -/
inductive Ev where
  | push (v : JSVal)
  | drawGraph (cmds : List Cmd)
  | clear
  | smAdvance (dt : ℚ)
  | abAdvance (dt : ℚ)
  | save
  | align
  | draw
  | restore
  | flush
  | resolveFrame
  | raf
  deriving DecidableEq

/-- `elapsedTimeSec` of a tick (game.ts lines 97-101): `if (!lastTime)
lastTime = time;` (the zero sentinel marks the first tick), then
`(time - lastTime) / 1000`. -/
def elapsedSec (s : LoopState) (time : ℚ) : ℚ :=
  (time - (if s.lastTime = 0 then time else s.lastTime)) / 1000

/-- The rendering portion of a tick (game.ts lines 113-136): clear, advance
the state machine and the artboard once each, then inside one save/restore
scope align once and draw the artboard `drawCount` times, then restore,
flush once, and resolve the animation frame. -/
def advanceAndDraw (elapsed : ℚ) (drawCount : ℕ) : List Ev :=
  [Ev.clear, Ev.smAdvance elapsed, Ev.abAdvance elapsed, Ev.save, Ev.align]
  ++ List.replicate drawCount Ev.draw
  ++ [Ev.restore, Ev.flush, Ev.resolveFrame]

/-- `drawFPSGraph()` as called inside the tick: it reads the module state's
`fpsArray` (and the fixed overlay canvas) and nothing else, and writes no
module state. -/
def drawFPSGraphFrom (s : LoopState) : List Cmd :=
  drawFPSGraph s.fpsArray

/-- One execution of `renderLoop(time)` (game.ts lines 96-139): the state
after the tick, and the trace of calls the tick makes, in order. -/
def renderLoopTick (s : LoopState) (time : ℚ) : LoopState × List Ev :=
  let fps := jsRecip (elapsedSec s time)
  let s' : LoopState :=
    { lastTime := time
      fpsArray := recordSample s.fpsArray fps
      renderCount := s.renderCount }
  (s', [Ev.push fps, Ev.drawGraph (drawFPSGraphFrom s')]
        ++ advanceAndDraw (elapsedSec s time) s.renderCount.toNat
        ++ [Ev.raf])

/-- Recognizer for artboard draw events. -/
def isDraw : Ev → Bool
  | Ev.draw => true
  | _ => false

/-- Recognizer for state-machine advance events. -/
def isSMAdvance : Ev → Bool
  | Ev.smAdvance _ => true
  | _ => false

/-- Recognizer for artboard (scene-graph) advance events. -/
def isABAdvance : Ev → Bool
  | Ev.abAdvance _ => true
  | _ => false

/-- Recognizer for flush events. -/
def isFlush : Ev → Bool
  | Ev.flush => true
  | _ => false

-- Basic lemmas about the render-count control.

lemma ctrlRun_foldl_bounds (ops : List CtrlOp) :
    ∀ v : ℤ, 1 ≤ v → v ≤ 100 →
      1 ≤ ops.foldl ctrlStep v ∧ ops.foldl ctrlStep v ≤ 100 := by
  induction ops with
  | nil => intro v h1 h2; simpa using ⟨h1, h2⟩
  | cons op ops ih =>
    intro v h1 h2
    rw [List.foldl_cons]
    apply ih
    · cases op <;>
        simp only [ctrlStep, le_min_iff, le_max_iff] <;> omega
    · cases op <;>
        simp only [ctrlStep, min_le_iff, max_le_iff] <;> omega

-- Lemmas about the tick trace.

lemma advanceAndDraw_countP_draw (e : ℚ) (k : ℕ) :
    (advanceAndDraw e k).countP isDraw = k := by
  simp [advanceAndDraw, List.countP_append, List.countP_cons, isDraw,
    List.countP_replicate]

lemma jsRecip_zero : jsRecip 0 = JSVal.inf := by
  simp [jsRecip]

lemma elapsedSec_of_lastTime_zero (s : LoopState) (t : ℚ) (h : s.lastTime = 0) :
    elapsedSec s t = 0 := by
  simp [elapsedSec, h]

lemma lineTos_map_lineTo {α : Type} (l : List α) (f g : α → ℚ) :
    lineTos (l.map fun p => Cmd.lineTo (f p) (g p)) = l.map fun p => (f p, g p) := by
  induction l with
  | nil => rfl
  | cons a l ih =>
    simpa [lineTos, List.filterMap_cons] using ih

-- C1 (zero-division guard): the claim fails on the code.  `renderLoop` has
-- no guard: it always computes `fps = 1 / elapsedTimeSec` and always pushes
-- it, so a tick with `elapsedSec == 0` pushes `+Infinity` and grows the
-- history.

/-- C1 counterexample: a tick whose timestamp equals the stored timestamp
(state `lastTime = 5`, empty history, tick at `time = 5`) has
`elapsedSec = 0`, yet the history after the tick is `[+Infinity]`: `record`
WAS invoked with a non-finite value and the history length changed from 0
to 1, refuting the claim as stated. -/
theorem c1_counterexample :
    elapsedSec ⟨5, [], 1⟩ 5 = 0 ∧
    (⟨5, [], 1⟩ : LoopState).fpsArray.length = 0 ∧
    (renderLoopTick ⟨5, [], 1⟩ 5).1.fpsArray = [JSVal.inf] ∧
    (renderLoopTick ⟨5, [], 1⟩ 5).1.fpsArray.length = 1 := by
  refine ⟨by norm_num [elapsedSec], rfl, ?_, ?_⟩ <;>
    norm_num [renderLoopTick, elapsedSec, jsRecip, recordSample, MAX_FPS_SAMPLES]

/-- C1 amended: on a tick with `elapsedSec = 0` the loop computes
`fps = 1 / 0 = +Infinity` and pushes it: the history after the tick is
`recordSample history +Infinity`, a `push +Infinity` call appears in the tick
trace, and (when the history respects its capacity bound) the length after
the tick is `min (before + 1) 1000` — one more entry, not the same length. -/
theorem c1_amended (s : LoopState) (t : ℚ) (h : elapsedSec s t = 0)
    (hlen : s.fpsArray.length ≤ MAX_FPS_SAMPLES) :
    (renderLoopTick s t).1.fpsArray = recordSample s.fpsArray JSVal.inf ∧
    Ev.push JSVal.inf ∈ (renderLoopTick s t).2 ∧
    (renderLoopTick s t).1.fpsArray.length
      = min (s.fpsArray.length + 1) MAX_FPS_SAMPLES := by
  have hfps : jsRecip (elapsedSec s t) = JSVal.inf := by rw [h]; exact jsRecip_zero
  refine ⟨?_, ?_, ?_⟩
  · simp [renderLoopTick, hfps]
  · simp [renderLoopTick, hfps]
  · simp [renderLoopTick, hfps, recordSample_length _ _ hlen]

/-- C1 witness: the amended statement at the concrete duplicate-timestamp
tick of the counterexample. -/
theorem c1_amended_witness :
    (renderLoopTick ⟨5, [], 1⟩ 5).1.fpsArray = recordSample [] JSVal.inf ∧
    Ev.push JSVal.inf ∈ (renderLoopTick ⟨5, [], 1⟩ 5).2 ∧
    (renderLoopTick ⟨5, [], 1⟩ 5).1.fpsArray.length
      = min (0 + 1) MAX_FPS_SAMPLES :=
  c1_amended ⟨5, [], 1⟩ 5 (by norm_num [elapsedSec]) (by norm_num)

/-- C2: for every sequence of `record` calls starting from the empty history
(capacity 1000), the history equals the most recent 1000 recorded samples in
their original order — `vs.drop (vs.length - 1000)` — and its length is
`min vs.length 1000`, hence at most 1000 at every point (every point of the
run is itself the run of a prefix). -/
theorem c2_bounded_history (vs : List JSVal) :
    histRun vs = vs.drop (vs.length - 1000) ∧
    (histRun vs).length = min vs.length 1000 := by
  have h := histRun_eq_drop vs
  rw [show MAX_FPS_SAMPLES = 1000 from rfl] at h
  refine ⟨h, ?_⟩
  rw [h, List.length_drop]
  omega

/-- C3: starting from 1, after any sequence of clicks (and at every
intermediate point, i.e. after every prefix of the sequence) `renderCount`
lies in `[1, 100]`; increment is `min 100 (v + 1)` so it is a no-op at 100,
and decrement is `max 1 (v - 1)` so it is a no-op at 1. -/
theorem c3_render_count_clamp (ops : List CtrlOp) (n : ℕ) (v : ℤ) :
    1 ≤ ctrlRun (ops.take n) ∧ ctrlRun (ops.take n) ≤ 100 ∧
    ctrlStep v CtrlOp.inc = min 100 (v + 1) ∧
    ctrlStep v CtrlOp.dec = max 1 (v - 1) ∧
    ctrlStep 100 CtrlOp.inc = 100 ∧
    ctrlStep 1 CtrlOp.dec = 1 := by
  have h := ctrlRun_foldl_bounds (ops.take n) 1 le_rfl (by norm_num)
  exact ⟨h.1, h.2, rfl, rfl, by norm_num [ctrlStep], by norm_num [ctrlStep]⟩

/-- C4: for `drawCount = k ∈ [1, 100]`, the per-tick rendering work issues
exactly `k` draw invocations, exactly one state-machine advance and one
artboard advance (each with the tick's elapsed seconds), and exactly one
flush; the whole trace decomposes as save/align, then the `k` draws
back-to-back inside that one saved transform scope, then restore and a
single flush after all the draws. -/
theorem c4_draw_cardinality (e : ℚ) (k : ℕ) (_h1 : 1 ≤ k) (_h2 : k ≤ 100) :
    (advanceAndDraw e k).countP isDraw = k ∧
    (advanceAndDraw e k).filter isSMAdvance = [Ev.smAdvance e] ∧
    (advanceAndDraw e k).filter isABAdvance = [Ev.abAdvance e] ∧
    (advanceAndDraw e k).filter isFlush = [Ev.flush] ∧
    advanceAndDraw e k
      = [Ev.clear, Ev.smAdvance e, Ev.abAdvance e, Ev.save, Ev.align]
        ++ List.replicate k Ev.draw
        ++ [Ev.restore, Ev.flush, Ev.resolveFrame] := by
  refine ⟨advanceAndDraw_countP_draw e k, ?_, ?_, ?_, rfl⟩ <;>
    simp [advanceAndDraw, List.filter_append, List.filter_replicate,
      isSMAdvance, isABAdvance, isFlush]

/-- C4 witness: the cardinality statement at the concrete tick
`elapsedSec = 1/60`, `drawCount = 3`. -/
theorem c4_witness :
    (advanceAndDraw (1 / 60) 3).countP isDraw = 3 ∧
    (advanceAndDraw (1 / 60) 3).filter isSMAdvance = [Ev.smAdvance (1 / 60)] ∧
    (advanceAndDraw (1 / 60) 3).filter isABAdvance = [Ev.abAdvance (1 / 60)] ∧
    (advanceAndDraw (1 / 60) 3).filter isFlush = [Ev.flush] ∧
    advanceAndDraw (1 / 60) 3
      = [Ev.clear, Ev.smAdvance (1 / 60), Ev.abAdvance (1 / 60), Ev.save,
         Ev.align]
        ++ List.replicate 3 Ev.draw
        ++ [Ev.restore, Ev.flush, Ev.resolveFrame] :=
  c4_draw_cardinality (1 / 60) 3 (by norm_num) (by norm_num)

/-- C5: on every tick the operations happen in the fixed order — the elapsed
time is computed, the instantaneous FPS is pushed into the history, the FPS
overlay is redrawn from the updated history (the post-tick `fpsArray`), then
the scene is advanced and drawn, and the very last event of every tick trace
is the unconditional `requestAnimationFrame` re-arm, which occurs exactly
once (there is no terminating branch). -/
theorem c5_tick_order (s : LoopState) (t : ℚ) :
    (renderLoopTick s t).1.fpsArray
      = recordSample s.fpsArray (jsRecip (elapsedSec s t)) ∧
    (renderLoopTick s t).2
      = [Ev.push (jsRecip (elapsedSec s t)),
         Ev.drawGraph (drawFPSGraphFrom (renderLoopTick s t).1)]
        ++ advanceAndDraw (elapsedSec s t) s.renderCount.toNat
        ++ [Ev.raf] ∧
    (renderLoopTick s t).2.getLast? = some Ev.raf ∧
    (renderLoopTick s t).2.count Ev.raf = 1 := by
  refine ⟨rfl, rfl, ?_, ?_⟩
  · exact List.getLast?_concat _
  · simp [renderLoopTick, advanceAndDraw, List.count_append, List.count_cons,
      List.count_replicate]

-- C6 (first tick): the claim fails on the code in one respect.  The first
-- tick does set `lastTime = t`, does treat the elapsed time as zero, and
-- does advance and draw in full — but it also pushes `1 / 0 = +Infinity`
-- into the history instead of recording nothing.

/-- C6 counterexample: from the initial state (`lastTime = 0`, empty
history), the first tick at `time = 7` leaves a history of length 1
containing `+Infinity` — a sample IS recorded, refuting the claim's "records
no FPS sample". -/
theorem c6_counterexample :
    (⟨0, [], 1⟩ : LoopState).lastTime = 0 ∧
    (renderLoopTick ⟨0, [], 1⟩ 7).1.lastTime = 7 ∧
    (renderLoopTick ⟨0, [], 1⟩ 7).1.fpsArray = [JSVal.inf] ∧
    (renderLoopTick ⟨0, [], 1⟩ 7).1.fpsArray.length ≠ 0 := by
  refine ⟨rfl, rfl, ?_, ?_⟩ <;>
    norm_num [renderLoopTick, elapsedSec, jsRecip, recordSample, MAX_FPS_SAMPLES]

/-- C6 amended: on the first tick observed (stored timestamp still the zero
sentinel) the scheduler sets `lastTime` to the received timestamp, the
elapsed time is zero, one history sample IS recorded and its value is
`+Infinity` (not "no sample"), and the scene still advances — state machine
and artboard each once with elapsed time 0 — and draws the full
`renderCount` number of times. -/
theorem c6_amended (s : LoopState) (t : ℚ) (h : s.lastTime = 0) :
    (renderLoopTick s t).1.lastTime = t ∧
    elapsedSec s t = 0 ∧
    (renderLoopTick s t).1.fpsArray = recordSample s.fpsArray JSVal.inf ∧
    Ev.smAdvance 0 ∈ (renderLoopTick s t).2 ∧
    Ev.abAdvance 0 ∈ (renderLoopTick s t).2 ∧
    (renderLoopTick s t).2.countP isDraw = s.renderCount.toNat := by
  have he : elapsedSec s t = 0 := elapsedSec_of_lastTime_zero s t h
  have hfps : jsRecip (elapsedSec s t) = JSVal.inf := by
    rw [he]; exact jsRecip_zero
  refine ⟨rfl, he, ?_, ?_, ?_, ?_⟩
  · simp [renderLoopTick, hfps]
  · simp [renderLoopTick, advanceAndDraw, he]
  · simp [renderLoopTick, advanceAndDraw, he]
  · simp [renderLoopTick, List.countP_append, List.countP_cons, isDraw,
      advanceAndDraw_countP_draw]

/-- C6 witness: the amended statement at the concrete initial state and first
tick `time = 7`. -/
theorem c6_amended_witness :
    (renderLoopTick ⟨0, [], 1⟩ 7).1.lastTime = 7 ∧
    elapsedSec ⟨0, [], 1⟩ 7 = 0 ∧
    (renderLoopTick ⟨0, [], 1⟩ 7).1.fpsArray = recordSample [] JSVal.inf ∧
    Ev.smAdvance 0 ∈ (renderLoopTick ⟨0, [], 1⟩ 7).2 ∧
    Ev.abAdvance 0 ∈ (renderLoopTick ⟨0, [], 1⟩ 7).2 ∧
    (renderLoopTick ⟨0, [], 1⟩ 7).2.countP isDraw = (1 : ℤ).toNat :=
  c6_amended ⟨0, [], 1⟩ 7 rfl

/-- C7: the reference lines at 30, 60 and 120 FPS and the data samples share
one vertical mapping `y = height - ((fps - 15) / (200 - 15)) * height`; every
sample is clamped into `[15, 200]` before that mapping; sample `i` of `n` is
placed at `x = (i / (n - 1)) * width`; and when `n ≤ 1` the polyline emits no
`lineTo` at all beyond its fixed starting `moveTo`. -/
theorem c7_visualizer_mapping (samples : List JSVal) (fps : ℚ) (v : JSVal) :
    targetFPS = [30, 60, 120] ∧
    fpsToY fps = fpsCanvasHeight - ((fps - 15) / (200 - 15)) * fpsCanvasHeight ∧
    Cmd.moveTo 0 (fpsToY fps) ∈ targetLineCmds fps ∧
    lineTos (targetLineCmds fps) = [(fpsCanvasWidth, fpsToY fps)] ∧
    15 ≤ clampFPS v ∧ clampFPS v ≤ 200 ∧
    Cmd.moveTo 0 fpsCanvasHeight ∈ polylineCmds samples ∧
    lineTos (polylineCmds samples)
      = (if 1 < samples.length then
          samples.enum.map fun p =>
            (((p.1 : ℚ) / ((samples.length : ℚ) - 1)) * fpsCanvasWidth,
              fpsToY (clampFPS p.2))
        else []) := by
  refine ⟨rfl, rfl, by simp [targetLineCmds], by rfl, ?_, ?_, ?_, ?_⟩
  · exact le_max_left _ _
  · apply max_le (by norm_num [minFPS, maxFPS])
    cases v with
    | inf => norm_num [jsMin, maxFPS]
    | finite q => exact min_le_left _ _
  · simp [polylineCmds]
  · by_cases hn : 1 < samples.length
    · simp only [polylineCmds, hn, if_true, lineTos, List.filterMap_append,
        List.filterMap_cons, List.filterMap_nil]
      simpa [lineTos] using
        lineTos_map_lineTo samples.enum
          (fun p => ((p.1 : ℚ) / ((samples.length : ℚ) - 1)) * fpsCanvasWidth)
          (fun p => fpsToY (clampFPS p.2))
    · simp [polylineCmds, hn, lineTos, List.filterMap_append,
        List.filterMap_cons]

/-- C8: rendering the empty snapshot is safe and complete: the output is
exactly the background/clear and grid section, the three reference lines,
a polyline section that contains only its fixed start (no `lineTo`), and the
readout, which displays the JS undefined-safe placeholder
`Current: NaN FPS` instead of crashing on the missing last element. -/
theorem c8_empty_snapshot :
    drawFPSGraph []
      = headerCmds ++ (targetFPS.map targetLineCmds).flatten
        ++ polylineCmds [] ++ readoutCmds [] ∧
    polylineCmds []
      = [Cmd.strokeStyle "rgb(0, 255, 0)", Cmd.beginPath,
         Cmd.moveTo 0 fpsCanvasHeight, Cmd.stroke] ∧
    lineTos (polylineCmds []) = [] ∧
    readoutCmds []
      = [Cmd.fillStyle "rgb(255, 255, 255)", Cmd.font "10px monospace",
         Cmd.fillText "Current: NaN FPS" 5 10] ∧
    gridCmds.length = 30 ∧
    (targetFPS.map targetLineCmds).flatten.length = 24 := by
  refine ⟨rfl, rfl, rfl, ?_, ?_, ?_⟩
  · rfl
  · decide
  · decide

/-- C9: the overlay renderer is deterministic in the snapshot it reads: two
module states with identical `fpsArray` contents (whatever their `lastTime`
and `renderCount`) produce identical drawing-call output, and the renderer
returns only drawing calls — it writes no module state. -/
theorem c9_visualizer_deterministic (s₁ s₂ : LoopState)
    (h : s₁.fpsArray = s₂.fpsArray) :
    drawFPSGraphFrom s₁ = drawFPSGraphFrom s₂ := by
  simp [drawFPSGraphFrom, h]

/-- C9 witness: two states agreeing on the history but differing in both
`lastTime` and `renderCount` render identically. -/
theorem c9_witness :
    drawFPSGraphFrom ⟨0, [JSVal.finite 60], 1⟩
      = drawFPSGraphFrom ⟨99, [JSVal.finite 60], 50⟩ :=
  c9_visualizer_deterministic ⟨0, [JSVal.finite 60], 1⟩
    ⟨99, [JSVal.finite 60], 50⟩ rfl

/-- C10: the first-tick test is a falsiness check of the numeric sentinel 0,
so a tick whose timestamp is exactly 0 stores `lastTime = 0` again; the next
tick therefore also takes the first-tick branch: its elapsed time is 0
whatever the real gap `t`, and it again pushes `1 / 0 = +Infinity` — the
first-tick behavior can occur on more than one tick. -/
theorem c10_zero_timestamp_sentinel (s : LoopState) (t : ℚ) :
    (renderLoopTick s 0).1.lastTime = 0 ∧
    elapsedSec (renderLoopTick s 0).1 t = 0 ∧
    (renderLoopTick (renderLoopTick s 0).1 t).1.fpsArray
      = recordSample (renderLoopTick s 0).1.fpsArray JSVal.inf := by
  refine ⟨rfl, ?_, ?_⟩
  · simp [elapsedSec, renderLoopTick]
  · have he : elapsedSec (renderLoopTick s 0).1 t = 0 := by
      simp [elapsedSec, renderLoopTick]
    have hg : (renderLoopTick (renderLoopTick s 0).1 t).1.fpsArray
        = recordSample (renderLoopTick s 0).1.fpsArray
            (jsRecip (elapsedSec (renderLoopTick s 0).1 t)) := rfl
    rw [hg, he, jsRecip_zero]

end RiveDeg
